import Mathlib

/-!
# Verification of the translation-orchestration layer

Shallow embedding of the translation service (`src/services/azureOpenAI.ts`)
and the CSV batch orchestrator (the CsvTranslator component).  JavaScript
strings are modelled as Lean `String` (the inputs relevant to the claims are
ASCII, where UTF-16 code units and code points coincide); machine time is
modelled as an integer-millisecond monotone clock; the outcome of each
outbound network call is supplied by an environment value so that the
control flow of the service can be analysed for every possible upstream
behaviour.
-/

namespace AiTranslation

/-- The `TranslationModel` union type of `azureOpenAI.ts`. -/
inductive TranslationModel where
  | gpt41
  | gpt5chat
  | gpt5mini
  | gpt5nano
  | phi4
  | grok3mini
  | mistralSmall2503
  | mistralSmall2503v2
  | azureTranslate
deriving DecidableEq, Repr

open TranslationModel

/-- The literal model-id string (the TS string value of the union member). -/
def modelIdString : TranslationModel → String
  | gpt41 => "gpt-4.1"
  | gpt5chat => "gpt-5-chat"
  | gpt5mini => "gpt-5-mini"
  | gpt5nano => "gpt-5-nano"
  | phi4 => "phi-4"
  | grok3mini => "grok-3-mini"
  | mistralSmall2503 => "mistral-small-2503"
  | mistralSmall2503v2 => "mistral-small-2503-2"
  | azureTranslate => "azure-translate"

/-- The `modelLabels` display-name table of `mockTranslation`. -/
def modelLabel : TranslationModel → String
  | gpt41 => "GPT-4.1"
  | gpt5chat => "GPT-5 Chat"
  | gpt5mini => "GPT-5 Mini"
  | gpt5nano => "GPT-5 Nano"
  | phi4 => "Microsoft Phi-4"
  | grok3mini => "Grok-3 Mini"
  | mistralSmall2503 => "Mistral Small 2503"
  | mistralSmall2503v2 => "Mistral Small 2503-2"
  | azureTranslate => "Azure AI Translation Service"

/-- Whether `pat` is a leading segment of `l` (character-wise). -/
def leadingMatch : List Char → List Char → Bool
  | [], _ => true
  | _ :: _, [] => false
  | a :: pat, b :: l => a == b && leadingMatch pat l

/-- Whether `pat` occurs contiguously anywhere in `l`. -/
def substringSearch (pat : List Char) : List Char → Bool
  | [] => leadingMatch pat []
  | c :: rest => leadingMatch pat (c :: rest) || substringSearch pat rest

/-- JavaScript `String.prototype.includes` (for a non-empty pattern):
contiguous-substring test on the character sequence. -/
def jsIncludes (s pat : String) : Bool :=
  substringSearch pat.data s.data

/-- The `basicTranslations` dictionary of the `azure-translate` branch of
`mockTranslation`, in object-literal insertion order. -/
def azureTranslateDict : List (String × String) :=
  [("welcome to our platform", "bienvenido a nuestra plataforma"),
   ("get started", "empezar"),
   ("contact support", "contactar soporte"),
   ("user dashboard", "panel de usuario"),
   ("about us", "acerca de nosotros"),
   ("privacy policy", "política de privacidad"),
   ("terms of service", "términos de servicio"),
   ("product features", "características del producto"),
   ("customer reviews", "reseñas de clientes"),
   ("pricing plans", "planes de precios")]

/-- The `basicTranslations` dictionary of the `gpt-4.1` branch of
`mockTranslation`, in object-literal insertion order. -/
def gpt41Dict : List (String × String) :=
  [("hello", "hola"),
   ("world", "mundo"),
   ("how are you", "cómo estás"),
   ("good morning", "buenos días"),
   ("thank you", "gracias"),
   ("please", "por favor"),
   ("yes", "sí"),
   ("no", "no"),
   ("water", "agua"),
   ("food", "comida")]

/-- The `for (const [english, spanish] of Object.entries(...))` loop:
first dictionary entry whose key occurs in the lowercased input wins. -/
def firstDictHit (dict : List (String × String)) (lowerText : String) : Option String :=
  dict.findSome? (fun p => if jsIncludes lowerText p.1 then some p.2 else none)

/-- Model of `String.prototype.toLowerCase` restricted to its ASCII action
(the mock dictionary keys it is compared against are ASCII). -/
def jsToLower (s : String) : String :=
  String.mk (s.data.map Char.toLower)

/-- Model of `mockTranslation(text, model)` from `azureOpenAI.ts`.  `toLowerCase` is
modelled by `jsToLower` (the dictionary keys are ASCII, where the two
agree). -/
def mockTranslation (text : String) (model : TranslationModel) : String :=
  if model = azureTranslate then
    match firstDictHit azureTranslateDict (jsToLower text) with
    | some spanish => spanish ++ " (traducido con " ++ modelLabel model ++ ")"
    | none =>
        "Traducción directa: \"" ++ text ++ "\" (generado por " ++
          modelLabel model ++ " - versión demo)"
  else if model = gpt41 then
    match firstDictHit gpt41Dict (jsToLower text) with
    | some spanish => spanish ++ " (translated with " ++ modelLabel model ++ ")"
    | none =>
        "Traducción en español del texto: \"" ++ text ++ "\" (generado por " ++
          modelLabel model ++ " - versión demo)"
  else
    "[" ++ modelLabel model ++ " Mock] Spanish translation of: \"" ++ text ++ "\""

/-- Model of `estimateTokenCount(text)`: `Math.ceil(text.length / 4)`. -/
def estimateTokenCount (text : String) : Nat :=
  (text.length + 3) / 4

/-- The three models singled out by the `isLimitedModel` check in
`translateText`. -/
def isLimitedModel (m : TranslationModel) : Bool :=
  m = gpt5mini || m = gpt5nano || m = grok3mini

/-- The JavaScript whitespace class used by `String.prototype.trim` and
`\s` (ECMA-262 WhiteSpace ∪ LineTerminator): TAB–CR, SP, NBSP, and the
Unicode space separators plus ZWNBSP. -/
def jsWhitespace (c : Char) : Bool :=
  let n := c.toNat
  (9 ≤ n && n ≤ 13) || n = 32 || n = 160 || n = 5760 ||
    (8192 ≤ n && n ≤ 8202) || n = 8232 || n = 8233 || n = 8239 ||
    n = 8287 || n = 12288 || n = 65279

/-- JavaScript `String.prototype.trim`: drop leading and trailing
whitespace characters. -/
def jsTrim (s : String) : String :=
  String.mk (((s.data.dropWhile jsWhitespace).reverse.dropWhile jsWhitespace).reverse)

/-- A thrown JavaScript error value, as observed by the catch blocks of the
service: its `message` property and its optional `status` property (present
on the SDK's API errors, absent on plain `Error` objects and on network-level
failures). -/
structure JsError where
  message : String
  status : Option Nat
deriving DecidableEq, Repr

/-- Model of `error?.message || String(error)`: a JavaScript `Error` with an empty
message stringifies to `"Error"`. -/
def jsErrorText (e : JsError) : String :=
  if e.message = "" then "Error" else e.message

/-- One element of `response.choices` as consumed by `translateSingleChunk`:
the optional message content (`undefined`/`null` merged into `none`) and the
optional `finish_reason`. -/
structure ChatChoice where
  content : Option String
  finishReason : Option String
deriving DecidableEq, Repr

/-- The parsed chat-completion response body. -/
structure ChatResponse where
  choices : List ChatChoice
deriving DecidableEq, Repr

/-- Outcome of the single `client.chat.completions.create` call: either a
parsed response, or a rejection carrying a JavaScript error (HTTP errors from
the SDK carry a `status`; connection-level failures do not). -/
inductive ChatOutcome where
  | response (r : ChatResponse)
  | failure (e : JsError)
deriving DecidableEq, Repr

/-- The diagnostic string embedded in the generic empty-response error of
`translateSingleChunk` (the `JSON.stringify(errorDetails)` payload); the
simplified response representation collapses the `message` object into its
content, merging `undefined` and `null` into `none`, so `hasMessage` and the
key-omission behaviour of `JSON.stringify` on `undefined` are folded into
the `none` cases below. -/
def emptyResponseDetails (r : ChatResponse) : String :=
  let hasChoices := decide (r.choices ≠ [])
  let content := (r.choices.head?).bind (fun c => c.content)
  let finish := (r.choices.head?).bind (fun c => c.finishReason)
  let boolStr := fun (b : Bool) => if b then "true" else "false"
  let optStr := fun (o : Option String) => match o with
    | some c => "\"" ++ c ++ "\""
    | none => "undefined"
  "\x7b\"hasChoices\":" ++ boolStr hasChoices ++
    ",\"contentValue\":" ++ optStr content ++
    ",\"finishReason\":" ++ optStr finish ++ "\x7d"

/-- The response-interpretation half of `translateSingleChunk`: extract
`choices[0]?.message?.content?.trim()`; an empty or missing content is an
error classified by `finish_reason`; an SDK rejection propagates as-is. -/
def translateSingleChunk (m : TranslationModel) (outcome : ChatOutcome) :
    Except JsError String :=
  match outcome with
  | ChatOutcome.failure e => Except.error e
  | ChatOutcome.response r =>
    let translation := ((r.choices.head?).bind (fun c => c.content)).map jsTrim
    match translation with
    | some t =>
      if t = "" then
        translateEmptyCase m r
      else
        Except.ok t
    | none => translateEmptyCase m r
where
  /-- The `!translation || translation.length === 0` branch. -/
  translateEmptyCase (m : TranslationModel) (r : ChatResponse) : Except JsError String :=
    let finish := (r.choices.head?).bind (fun c => c.finishReason)
    if finish = some "content_filter" then
      Except.error ⟨"Translation blocked by content filter", none⟩
    else if finish = some "length" then
      Except.error ⟨"Translation truncated due to length limit", none⟩
    else
      Except.error ⟨"No translation received from " ++ modelIdString m ++
        ". Response: " ++ emptyResponseDetails r, none⟩

/-- One `{text}` element of the dedicated-translation response's
`translations` array. -/
structure AzTranslation where
  text : String
deriving DecidableEq, Repr

/-- One element of the dedicated-translation response array; a missing
`translations` property is `none` (an empty array is `some []`). -/
structure AzItem where
  translations : Option (List AzTranslation)
deriving DecidableEq, Repr

/-- Outcome of the single `fetch` of `translateWithAzureTranslate`: a
response with an HTTP status, status text and parsed JSON body (a non-array
or null body is `none`), or a network-level rejection (also covering a
`json()` parse failure) carrying only a message. -/
inductive AzOutcome where
  | response (status : Nat) (statusText : String) (body : Option (List AzItem))
  | networkFailure (msg : String)
deriving DecidableEq, Repr

/-- The `try` body of `translateWithAzureTranslate` after the `lastError =
null` reset: `response.ok` gating, then the
`result[0].translations[0].text` shape check.  HTTP failures are rethrown as
plain `Error` objects, which carry no `status` property. -/
def azureFetchResult (o : AzOutcome) : Except JsError String :=
  match o with
  | AzOutcome.networkFailure msg => Except.error ⟨msg, none⟩
  | AzOutcome.response status statusText body =>
    if 200 ≤ status ∧ status < 300 then
      match body with
      | some (item :: _) =>
        match item.translations with
        | some (tr :: _) => Except.ok tr.text
        | _ => Except.error ⟨"Invalid response format from Azure Translate", none⟩
      | _ => Except.error ⟨"Invalid response format from Azure Translate", none⟩
    else
      Except.error ⟨"Azure Translate API error: " ++ toString status ++ " " ++
        statusText, none⟩

/-- A calendar instant as consumed by `Date.prototype.toISOString`. -/
structure DateTime where
  year : Nat
  month : Nat
  day : Nat
  hour : Nat
  minute : Nat
  second : Nat
  millisecond : Nat
deriving DecidableEq, Repr

/-- Field ranges under which the fixed-width rendering below coincides with
`Date.prototype.toISOString` (years outside 0..9999 use an extended format
not reachable from realistic clock values). -/
def validDate (d : DateTime) : Prop :=
  d.year ≤ 9999 ∧ 1 ≤ d.month ∧ d.month ≤ 12 ∧ 1 ≤ d.day ∧ d.day ≤ 31 ∧
    d.hour ≤ 23 ∧ d.minute ≤ 59 ∧ d.second ≤ 59 ∧ d.millisecond ≤ 999

instance (d : DateTime) : Decidable (validDate d) := by
  unfold validDate; infer_instance

/-- The decimal digit character for `n % 10`. -/
def digitChar (n : Nat) : Char := Char.ofNat (48 + n % 10)

/-- Two-digit zero-padded rendering (for values below 100). -/
def pad2 (n : Nat) : List Char := [digitChar (n / 10), digitChar n]

/-- Three-digit zero-padded rendering (for values below 1000). -/
def pad3 (n : Nat) : List Char := [digitChar (n / 100), digitChar (n / 10), digitChar n]

/-- Four-digit zero-padded rendering (for values below 10000). -/
def pad4 (n : Nat) : List Char :=
  [digitChar (n / 1000), digitChar (n / 100), digitChar (n / 10), digitChar n]

/-- Model of `Date.prototype.toISOString` (ECMA-262 format
`YYYY-MM-DDTHH:mm:ss.sssZ`) for dates with a four-digit year. -/
def toISOString (d : DateTime) : String :=
  String.mk (pad4 d.year ++ '-' :: pad2 d.month ++ '-' :: pad2 d.day ++
    'T' :: pad2 d.hour ++ ':' :: pad2 d.minute ++ ':' :: pad2 d.second ++
    '.' :: pad3 d.millisecond ++ ['Z'])

/-- Decimal digit test on a character. -/
def isDigitChar (c : Char) : Bool := 48 ≤ c.toNat && c.toNat ≤ 57

/-- Numeric value of a decimal digit character. -/
def digitVal (c : Char) : Nat := c.toNat - 48

/-- An ISO-8601 (`YYYY-MM-DDTHH:mm:ss.sssZ`) parser: accepts exactly the
24-character extended-format UTC timestamp shape and recovers the fields. -/
def parseIso8601 (s : String) : Option DateTime :=
  match s.data with
  | [y1, y2, y3, y4, s1, mo1, mo2, s2, d1, d2, s3, h1, h2, s4, mi1, mi2, s5,
     se1, se2, s6, ms1, ms2, ms3, s7] =>
    if (isDigitChar y1 && isDigitChar y2 && isDigitChar y3 && isDigitChar y4 &&
        isDigitChar mo1 && isDigitChar mo2 && isDigitChar d1 && isDigitChar d2 &&
        isDigitChar h1 && isDigitChar h2 && isDigitChar mi1 && isDigitChar mi2 &&
        isDigitChar se1 && isDigitChar se2 && isDigitChar ms1 &&
        isDigitChar ms2 && isDigitChar ms3 &&
        s1 = '-' && s2 = '-' && s3 = 'T' && s4 = ':' && s5 = ':' &&
        s6 = '.' && s7 = 'Z') then
      some ⟨digitVal y1 * 1000 + digitVal y2 * 100 + digitVal y3 * 10 + digitVal y4,
            digitVal mo1 * 10 + digitVal mo2,
            digitVal d1 * 10 + digitVal d2,
            digitVal h1 * 10 + digitVal h2,
            digitVal mi1 * 10 + digitVal mi2,
            digitVal se1 * 10 + digitVal se2,
            digitVal ms1 * 100 + digitVal ms2 * 10 + digitVal ms3⟩
    else none
  | _ => none

/-- The mutable state of the `AzureOpenAIService` singleton relevant to the
claims: the `lastError` field (the configuration fields are load-once
read-only and live in `Env`). -/
structure ServiceState where
  lastError : Option String
deriving DecidableEq, Repr

/-- The read-only run context of a single `translateText` call: whether the
two configuration groups were present at startup, the outcome each outbound
call would have if dispatched, and the monotone millisecond clock readings
taken by the two `performance.now()` calls (`t0` just before dispatch, `t1`
just after) together with the `new Date()` instant. -/
structure Env where
  configPresent : Bool
  azConfigPresent : Bool
  chatOutcome : ChatOutcome
  azOutcome : AzOutcome
  t0 : Int
  t1 : Int
  now : DateTime

/-- The `TranslationResult` record returned by `translateText`
(`latency` is `Math.round(endTime - startTime)` of the float clock,
modelled at integer-millisecond resolution). -/
structure TranslationResult where
  text : String
  model : TranslationModel
  latency : Int
  timestamp : String
deriving DecidableEq, Repr

/-- Model of `translateWithAzureTranslate(text)`: mock when the dedicated
config is absent; otherwise clear `lastError`, run the fetch, and on any
thrown error classify it by its (never actually present) `status` property
and fall back to the mock annotated with the failure reason. -/
def translateWithAzureTranslate (env : Env) (s : ServiceState) (text : String) :
    ServiceState × String :=
  if env.azConfigPresent = false then
    (s, mockTranslation text azureTranslate)
  else
    match azureFetchResult env.azOutcome with
    | Except.ok t => (⟨none⟩, t)
    | Except.error e =>
      let classified :=
        if e.status = some 401 then
          "Authentication failed - check your Azure Translate API key"
        else if e.status = some 403 then
          "Access denied - check your Azure Translate subscription"
        else if e.status = some 429 then
          "Rate limit exceeded - please wait and try again"
        else jsErrorText e
      (⟨some classified⟩,
        mockTranslation text azureTranslate ++
          "\n\n(Note: Azure Translate API call failed: " ++ classified ++ ")")

/-- The descriptive pre-flight error message thrown by `translateText` for
the limited models when the estimated token count exceeds 2500. -/
def oversizeMessage (text : String) (m : TranslationModel) : String :=
  "Text too long for " ++ modelIdString m ++
    ". This model has a limit of approximately 2500 tokens (~10,000 characters). Current text is approximately " ++
    toString (estimateTokenCount text) ++
    " tokens. Please use a shorter text or try a different model like GPT-4.1 or GPT-5 Chat for longer content."

/-- The `try` block of `translateText`: returns the updated state, the
translated text or the thrown error, and whether the chat-completion
network call (`translateSingleChunk`) was dispatched. -/
def translateAttempt (env : Env) (s : ServiceState) (text : String)
    (m : TranslationModel) : ServiceState × Except JsError String × Bool :=
  if m = azureTranslate then
    let p := translateWithAzureTranslate env s text
    (p.1, Except.ok p.2, false)
  else if env.configPresent = false then
    (s, Except.ok (mockTranslation text m), false)
  else if isLimitedModel m = true ∧ 2500 < estimateTokenCount text then
    (s, Except.error ⟨oversizeMessage text m, none⟩, false)
  else
    (s, translateSingleChunk m env.chatOutcome, true)

/-- Model of `translateText(text, model)`: wrap the `try` block's outcome in
a `TranslationResult`; any thrown error is caught, classified by its
`status` property into `lastError`, and converted into a mock fallback
annotated with the reason (the fixed demo note for `gpt-4.1`). -/
def translateText (env : Env) (s : ServiceState) (text : String)
    (m : TranslationModel) : ServiceState × TranslationResult :=
  match translateAttempt env s text m with
  | (s1, Except.ok t, _) =>
    (s1, ⟨t, m, env.t1 - env.t0, toISOString env.now⟩)
  | (_, Except.error e, _) =>
    let classified :=
      if e.status = some 401 then "Authentication failed - check your API key"
      else if e.status = some 404 then
        "Model deployment not found - check deployment names"
      else if e.status = some 429 then
        "Rate limit exceeded - please wait and try again"
      else jsErrorText e
    let fallback :=
      if m = gpt41 then
        mockTranslation text m ++
          "\n\n(Demo Note: GPT-4.1 is deployed but requires special API access. Using mock translation for demo.)"
      else
        mockTranslation text m ++ "\n\n(Note: API call failed: " ++ classified ++ ")"
    (⟨some classified⟩, ⟨fallback, m, env.t1 - env.t0, toISOString env.now⟩)

/-- Whether the chat-completion network call was dispatched during
`translateText`. -/
def chatCallAttempted (env : Env) (s : ServiceState) (text : String)
    (m : TranslationModel) : Bool :=
  (translateAttempt env s text m).2.2

/-- Whether the `try` block of `translateText` completed without throwing
(so the catch handler was not entered). -/
def translateOk (env : Env) (s : ServiceState) (text : String)
    (m : TranslationModel) : Bool :=
  match (translateAttempt env s text m).2.1 with
  | Except.ok _ => true
  | Except.error _ => false

/-- Model of `getLastError()`. -/
def getLastError (s : ServiceState) : Option String :=
  s.lastError

/-- The `mockTranslation` method viewed as a call on the service: its body
reads no field of `this` and performs no assignment, so the call returns the
pure `mockTranslation` value and the state unchanged. -/
def mockTranslationCall (s : ServiceState) (env : Env) (text : String)
    (m : TranslationModel) : ServiceState × String :=
  (s, mockTranslation text m)

/-! ## The CSV batch orchestrator (CsvTranslator's `handleTranslateCsv`)

The orchestrator is parametric in the selected-model type `α` and in the
per-(text, model) translation outcome `tf` (the text of the result object
produced by `translateTextWithMultipleModels`, which loops over the
selected models calling `translateText` once per model and never rejects).
An oracle `fails : ℕ → Bool` marks the iterations of the unique-text loop
whose bodies throw after the translation call (the `catch` branch of the
loop); the translation invocations themselves precede that point. -/

/-- A parsed CSV row: the header-to-cell mapping in column order. -/
abbrev CsvRow := List (String × String)

/-- JavaScript truthiness-aware field read: a missing key or an empty-string
cell is falsy. -/
def fieldOr (row : CsvRow) (k : String) : Option String :=
  match row.lookup k with
  | some v => if v = "" then none else some v
  | none => none

/-- Model of `row['English'] || row[' English'] || ''`. -/
def englishOf (row : CsvRow) : String :=
  match fieldOr row "English" with
  | some v => v
  | none =>
    match fieldOr row " English" with
    | some v => v
    | none => ""

/-- Test for an ASCII letter, the `/[a-zA-Z]/` regex class. -/
def isAsciiLetter (c : Char) : Bool :=
  (65 ≤ c.toNat && c.toNat ≤ 90) || (97 ≤ c.toNat && c.toNat ≤ 122)

/-- Model of `/[a-zA-Z]/.test(s)`. -/
def hasLetter (s : String) : Bool :=
  s.data.any isAsciiLetter

/-- The row filter of `extractTextFromCsv`:
`englishText.trim().length > 0 && /[a-zA-Z]/.test(englishText)`. -/
def translatable (englishText : String) : Bool :=
  decide (0 < (jsTrim englishText).length) && hasLetter englishText

/-- Model of `extractTextFromCsv(data)`: the trimmed English cell of every
row passing the filter, in row order. -/
def extractTextFromCsv (data : List CsvRow) : List String :=
  data.filterMap (fun row =>
    if translatable (englishOf row) = true then some (jsTrim (englishOf row))
    else none)

/-- Model of `[...new Set(allTexts)]`: first-seen-order deduplication with
an accumulator of already-seen values. -/
def dedupAux : List String → List String → List String
  | [], _ => []
  | t :: ts, seen =>
    if t ∈ seen then dedupAux ts seen else t :: dedupAux ts (t :: seen)

/-- The `uniqueTexts` list of `handleTranslateCsv`. -/
def orchUnique (data : List CsvRow) : List String :=
  dedupAux (extractTextFromCsv data) []

/-- The fraction reported after iteration `i` of the unique-text loop:
`((i + 1) / uniqueTexts.length) * 100`. -/
def progressValue (n : Nat) (i : Nat) : ℚ :=
  (((i : ℚ) + 1) / (n : ℚ)) * 100

/-- Observable artefacts of the unique-text loop: the accumulated
`translationMaps` entries, the emitted progress updates, and the
`translateText` invocations made through `translateTextWithMultipleModels`
(one per selected model per unique text), all in chronological order. -/
structure LoopOut (α : Type) where
  entries : List (String × (α → String))
  updates : List ℚ
  invocations : List (String × α)

/-- The unique-text loop of `handleTranslateCsv` over the remaining texts,
starting at loop index `i` with `n` total unique texts.  A failing
iteration (`fails i`) maps the text to itself as fallback and emits no
progress update; the translation invocations happen before the failure
point. -/
def batchLoop {α : Type} (tf : String → α → String) (fails : Nat → Bool)
    (n : Nat) (models : List α) : List String → Nat → LoopOut α
  | [], _ => ⟨[], [], []⟩
  | t :: ts, i =>
    let rest := batchLoop tf fails n models ts (i + 1)
    let inv := models.map (fun m => (t, m)) ++ rest.invocations
    if fails i = true then
      ⟨(t, fun _ => t) :: rest.entries, rest.updates, inv⟩
    else
      ⟨(t, fun m => tf t m) :: rest.entries,
        progressValue n i :: rest.updates, inv⟩

/-- The complete unique-text loop run of `handleTranslateCsv`. -/
def orchLoop {α : Type} (tf : String → α → String) (fails : Nat → Bool)
    (models : List α) (data : List CsvRow) : LoopOut α :=
  batchLoop tf fails (orchUnique data).length models (orchUnique data) 0

/-- All `translateText` invocations of a batch run. -/
def batchInvocations {α : Type} (tf : String → α → String) (fails : Nat → Bool)
    (models : List α) (data : List CsvRow) : List (String × α) :=
  (orchLoop tf fails models data).invocations

/-- The progress fractions reported during a batch run, starting with the
initial `setTranslationProgress(0)`. -/
def batchProgressReports {α : Type} (tf : String → α → String)
    (fails : Nat → Bool) (models : List α) (data : List CsvRow) : List ℚ :=
  0 :: (orchLoop tf fails models data).updates

/-- The progress value held after the batch run: the last reported one. -/
def batchFinalProgress {α : Type} (tf : String → α → String)
    (fails : Nat → Bool) (models : List α) (data : List CsvRow) : ℚ :=
  (batchProgressReports tf fails models data).getLastD 0

/-- Model of the `translatedCsv = csvData.map(...)` row mapping: attach one
`Spanish-{label}` cell per selected model when the row's (trimmed) English
cell has an entry in `translationMaps`; an empty translation string is falsy
in `translations[model] || englishText` and falls back to the raw cell. -/
def translatedRow {α : Type} [DecidableEq α]
    (entries : List (String × (α → String))) (label : α → String)
    (models : List α) (row : CsvRow) : CsvRow :=
  let e := englishOf row
  if e = "" then row
  else
    match entries.lookup (jsTrim e) with
    | none => row
    | some trs =>
      row ++ models.map (fun m =>
        ("Spanish-" ++ label m, if trs m = "" then e else trs m))

/-- The translated CSV produced after the loop (the function's early return
when `uniqueTexts` is empty is handled by the caller and leaves this list
unbuilt; on that input every row is mapped to itself here as well). -/
def batchOutput {α : Type} [DecidableEq α] (tf : String → α → String)
    (fails : Nat → Bool) (label : α → String) (models : List α)
    (data : List CsvRow) : List CsvRow :=
  data.map (translatedRow (orchLoop tf fails models data).entries label models)

/-! ## Helper lemmas -/

lemma charOfNat_toNat_digit : ∀ k, k < 10 → (Char.ofNat (48 + k)).toNat = 48 + k := by
  decide

lemma isDigitChar_digitChar (n : Nat) : isDigitChar (digitChar n) = true := by
  have h : n % 10 < 10 := Nat.mod_lt _ (by norm_num)
  unfold isDigitChar digitChar
  rw [charOfNat_toNat_digit _ h]
  simp only [Bool.and_eq_true, decide_eq_true_eq]
  omega

lemma digitVal_digitChar (n : Nat) : digitVal (digitChar n) = n % 10 := by
  have h : n % 10 < 10 := Nat.mod_lt _ (by norm_num)
  unfold digitVal digitChar
  rw [charOfNat_toNat_digit _ h]
  omega

/-- The modelled `toISOString` output parses back to the instant it was
rendered from, for any in-range date. -/
lemma parseIso8601_toISOString (d : DateTime) (hd : validDate d) :
    parseIso8601 (toISOString d) = some d := by
  obtain ⟨y, mo, da, h, mi, s, ms⟩ := d
  obtain ⟨hy, hmo1, hmo2, hda1, hda2, hh, hmi, hs, hms⟩ := hd
  simp only at hy hmo1 hmo2 hda1 hda2 hh hmi hs hms
  unfold toISOString pad4 pad3 pad2
  unfold parseIso8601
  simp only [List.cons_append, List.nil_append]
  rw [if_pos]
  · simp only [digitVal_digitChar, Option.some.injEq]
    congr 1 <;> omega
  · simp only [isDigitChar_digitChar, Bool.and_eq_true, decide_eq_true_eq]
    simp

/-- The kernel-evaluated dictionary hit for the end-to-end scenario. -/
lemma mockTranslation_water :
    mockTranslation "water" gpt41 = "agua (translated with GPT-4.1)" := by
  decide

/-! ## C7: unconfigured end-to-end scenario -/

/-- C7: with no provider configuration present, `translateText` on input
text "water" with model gpt-4.1 returns a `TranslationResult` whose text is
exactly "agua (translated with GPT-4.1)" (no failure note appended), whose
latency is ≥ 0 (the clock being monotone), and whose timestamp parses as an
ISO-8601 instant. -/
theorem translateText_unconfigured_water (env : Env) (s : ServiceState)
    (hc : env.configPresent = false) (ht : env.t0 ≤ env.t1)
    (hd : validDate env.now) :
    (translateText env s "water" gpt41).2.text = "agua (translated with GPT-4.1)" ∧
    0 ≤ (translateText env s "water" gpt41).2.latency ∧
    parseIso8601 ((translateText env s "water" gpt41).2.timestamp) = some env.now := by
  have hstep : translateAttempt env s "water" gpt41 =
      (s, Except.ok (mockTranslation "water" gpt41), false) := by
    unfold translateAttempt
    rw [if_neg (by decide : ¬(gpt41 = azureTranslate)), if_pos hc]
  unfold translateText
  rw [hstep, mockTranslation_water]
  refine ⟨rfl, by simp; omega, ?_⟩
  exact parseIso8601_toISOString env.now hd

/-- Witness for C7 at a concrete environment. -/
theorem translateText_unconfigured_water_witness :
    (Env.mk false false (ChatOutcome.failure ⟨"", none⟩)
        (AzOutcome.networkFailure "") 0 3 ⟨2026, 10, 12, 3, 4, 5, 6⟩).configPresent = false ∧
    (0 : Int) ≤ 3 ∧
    validDate ⟨2026, 10, 12, 3, 4, 5, 6⟩ ∧
    (translateText (Env.mk false false (ChatOutcome.failure ⟨"", none⟩)
        (AzOutcome.networkFailure "") 0 3 ⟨2026, 10, 12, 3, 4, 5, 6⟩) ⟨none⟩
        "water" gpt41).2.text = "agua (translated with GPT-4.1)" := by
  exact ⟨rfl, by norm_num, by decide,
    (translateText_unconfigured_water _ ⟨none⟩ rfl (by norm_num) (by decide)).1⟩

/-! ## C8: purity of the mock translator -/

/-- C8: the mock translator is pure, total and deterministic: invoked on the
same (text, model) pair from any two service states and environments it
returns the same output string, and it leaves the service state unchanged
(the method body reads no field and performs no I/O). -/
theorem mockTranslation_pure :
    ∀ (s1 s2 : ServiceState) (env1 env2 : Env) (text : String)
      (m : TranslationModel),
      (mockTranslationCall s1 env1 text m).2 = (mockTranslationCall s2 env2 text m).2 ∧
      (mockTranslationCall s1 env1 text m).1 = s1 :=
  fun _ _ _ _ _ _ => ⟨rfl, rfl⟩

/-- A concrete configured environment (the chat outcome is irrelevant on
the paths it is used for). -/
def envConfigured : Env :=
  ⟨true, false, ChatOutcome.response ⟨[]⟩, AzOutcome.networkFailure "", 0, 0,
    ⟨2026, 10, 12, 0, 0, 0, 0⟩⟩

/-! ## Service-layer helper lemmas -/

lemma length_mk (l : List Char) : (String.mk l).length = l.length := rfl

lemma estimate_replicate (k : Nat) :
    estimateTokenCount (String.mk (List.replicate k 'a')) = (k + 3) / 4 := by
  unfold estimateTokenCount
  rw [length_mk, List.length_replicate]

lemma oversizeMessage_ne_empty (text : String) (m : TranslationModel) :
    oversizeMessage text m ≠ "" := by
  intro h
  have h2 := congrArg String.length h
  unfold oversizeMessage at h2
  simp only [String.length_append] at h2
  have h18 : ("Text too long for ").length = 18 := rfl
  have h0 : ("" : String).length = 0 := rfl
  omega

lemma azureErrorMessage_ne_empty (st : Nat) (statusText : String) :
    ("Azure Translate API error: " ++ toString st ++ " " ++ statusText) ≠ "" := by
  intro h
  have h2 := congrArg String.length h
  simp only [String.length_append] at h2
  have h27 : ("Azure Translate API error: ").length = 27 := rfl
  have h0 : ("" : String).length = 0 := rfl
  omega

lemma not_azureTranslate_of_limited {m : TranslationModel}
    (hm : isLimitedModel m = true) : m ≠ azureTranslate := by
  intro h
  rw [h] at hm
  exact absurd hm (by decide)

lemma not_gpt41_of_limited {m : TranslationModel}
    (hm : isLimitedModel m = true) : m ≠ gpt41 := by
  intro h
  rw [h] at hm
  exact absurd hm (by decide)

lemma attempt_of_chatAttempted (env : Env) (s : ServiceState) (text : String)
    (m : TranslationModel) (h : chatCallAttempted env s text m = true) :
    translateAttempt env s text m = (s, translateSingleChunk m env.chatOutcome, true) := by
  unfold chatCallAttempted at h
  unfold translateAttempt at h ⊢
  split_ifs at h ⊢ <;> simp_all

lemma attempt_state_nonAz (env : Env) (s : ServiceState) (text : String)
    (m : TranslationModel) (hm : m ≠ azureTranslate) :
    (translateAttempt env s text m).1 = s := by
  unfold translateAttempt
  rw [if_neg hm]
  split_ifs <;> rfl

/-! ## C3: pre-flight size gate for the constrained variants -/

/-- C3: for the constrained-variant models with provider configuration
present, an input whose estimated token count exceeds 2500 raises the
descriptive oversize error before the chat network call is dispatched,
while an input estimating exactly 2500 tokens proceeds to the network
call. -/
theorem limited_model_preflight (env : Env) (s : ServiceState) (text : String)
    (m : TranslationModel) (hm : isLimitedModel m = true)
    (hc : env.configPresent = true) :
    (2500 < estimateTokenCount text →
      chatCallAttempted env s text m = false ∧
      (translateAttempt env s text m).2.1 =
        Except.error ⟨oversizeMessage text m, none⟩) ∧
    (estimateTokenCount text = 2500 →
      chatCallAttempted env s text m = true) := by
  have hne := not_azureTranslate_of_limited hm
  unfold chatCallAttempted translateAttempt
  rw [if_neg hne, if_neg (by simp [hc])]
  constructor
  · intro hlt
    rw [if_pos ⟨hm, hlt⟩]
    exact ⟨rfl, rfl⟩
  · intro heq
    have hnot : ¬(isLimitedModel m = true ∧ 2500 < estimateTokenCount text) := by
      rintro ⟨-, hlt⟩
      rw [heq] at hlt
      exact absurd hlt (by norm_num)
    rw [if_neg hnot]

/-- Witness for C3 at a 10004-character and a 10000-character input. -/
theorem limited_model_preflight_witness :
    2500 < estimateTokenCount (String.mk (List.replicate 10004 'a')) ∧
    estimateTokenCount (String.mk (List.replicate 10000 'a')) = 2500 ∧
    chatCallAttempted envConfigured ⟨none⟩
      (String.mk (List.replicate 10004 'a')) gpt5mini = false ∧
    chatCallAttempted envConfigured ⟨none⟩
      (String.mk (List.replicate 10000 'a')) gpt5mini = true := by
  have hover : 2500 < estimateTokenCount (String.mk (List.replicate 10004 'a')) := by
    rw [estimate_replicate]
    norm_num
  have hexact : estimateTokenCount (String.mk (List.replicate 10000 'a')) = 2500 := by
    rw [estimate_replicate]
  refine ⟨hover, hexact, ?_, ?_⟩
  · exact ((limited_model_preflight envConfigured ⟨none⟩ _ gpt5mini rfl rfl).1 hover).1
  · exact (limited_model_preflight envConfigured ⟨none⟩ _ gpt5mini rfl rfl).2 hexact

/-! ## C1: the oversize error does not propagate -/

lemma oversize_caught_core (env : Env) (s : ServiceState)
    (text : String) (m : TranslationModel) (hm : isLimitedModel m = true)
    (hc : env.configPresent = true) (hlt : 2500 < estimateTokenCount text) :
    (translateText env s text m).2.text =
      mockTranslation text m ++ "\n\n(Note: API call failed: " ++
        oversizeMessage text m ++ ")" ∧
    chatCallAttempted env s text m = false ∧
    getLastError (translateText env s text m).1 = some (oversizeMessage text m) := by
  have hne := not_azureTranslate_of_limited hm
  have hg := not_gpt41_of_limited hm
  have hstep : translateAttempt env s text m =
      (s, Except.error ⟨oversizeMessage text m, none⟩, false) := by
    unfold translateAttempt
    rw [if_neg hne, if_neg (by simp [hc]), if_pos ⟨hm, hlt⟩]
  have hclass : jsErrorText ⟨oversizeMessage text m, none⟩ = oversizeMessage text m := by
    unfold jsErrorText
    rw [if_neg (oversizeMessage_ne_empty text m)]
  unfold translateText chatCallAttempted getLastError
  rw [hstep]
  simp only [reduceCtorEq, if_false, if_neg hg, hclass]
  exact ⟨trivial, trivial, trivial⟩

lemma estimate_over_10004 :
    2500 < estimateTokenCount (String.mk (List.replicate 10004 'a')) := by
  rw [estimate_replicate]
  norm_num

/-- C1 (counterexample to the claim as stated): for a configured
constrained-variant call on a 10004-character input (2501 estimated
tokens), `translateText` does not fail outright: it returns a mock-fallback
`TranslationResult` whose text is the mock translation annotated with the
oversize message — the pre-flight error is caught by the function's own
catch handler. -/
theorem oversize_propagation_counterexample :
    (translateText envConfigured ⟨none⟩ (String.mk (List.replicate 10004 'a'))
        gpt5mini).2.text =
      mockTranslation (String.mk (List.replicate 10004 'a')) gpt5mini ++
        "\n\n(Note: API call failed: " ++
        oversizeMessage (String.mk (List.replicate 10004 'a')) gpt5mini ++ ")" :=
  (oversize_caught_core envConfigured ⟨none⟩ _ gpt5mini rfl rfl
    estimate_over_10004).1

/-- C1 (amended): for the constrained-variant models with configuration
present and an input above 2500 estimated tokens, the oversize error is
raised before any network call but is caught by `translateText`'s catch
handler and converted into a mock-fallback result carrying the descriptive
message as its failure note; it is also recorded in `lastError`. -/
theorem oversize_error_caught_fallback (env : Env) (s : ServiceState)
    (text : String) (m : TranslationModel) (hm : isLimitedModel m = true)
    (hc : env.configPresent = true) (hlt : 2500 < estimateTokenCount text) :
    (translateText env s text m).2.text =
      mockTranslation text m ++ "\n\n(Note: API call failed: " ++
        oversizeMessage text m ++ ")" ∧
    chatCallAttempted env s text m = false ∧
    getLastError (translateText env s text m).1 = some (oversizeMessage text m) :=
  oversize_caught_core env s text m hm hc hlt

/-- Witness for the amended C1 at the concrete oversized input. -/
theorem oversize_error_caught_fallback_witness :
    isLimitedModel gpt5mini = true ∧
    envConfigured.configPresent = true ∧
    2500 < estimateTokenCount (String.mk (List.replicate 10004 'a')) ∧
    chatCallAttempted envConfigured ⟨none⟩
      (String.mk (List.replicate 10004 'a')) gpt5mini = false := by
  exact ⟨rfl, rfl, estimate_over_10004,
    (oversize_error_caught_fallback envConfigured ⟨none⟩ _ gpt5mini rfl rfl
      estimate_over_10004).2.1⟩

/-! ## C2: HTTP 401 fallback annotation -/

/-- A concrete configured environment whose chat call fails with HTTP 401. -/
def env401 : Env :=
  ⟨true, false, ChatOutcome.failure ⟨"Unauthorized", some 401⟩,
    AzOutcome.networkFailure "", 0, 5, ⟨2026, 10, 12, 0, 0, 0, 0⟩⟩

/-- C2 (counterexample to the claim as stated): for the LLM-family model
gpt-4.1, an upstream HTTP 401 failure produces the fixed demo note, which
does not identify the authentication failure as the reason. -/
theorem auth401_note_counterexample :
    (translateText env401 ⟨none⟩ "hello" gpt41).2.text =
      "hola (translated with GPT-4.1)\n\n(Demo Note: GPT-4.1 is deployed but requires special API access. Using mock translation for demo.)" ∧
    jsIncludes (translateText env401 ⟨none⟩ "hello" gpt41).2.text
      "Authentication failed" = false := by
  constructor
  · rfl
  · rfl

/-- C2 (amended): for every LLM-family model except gpt-4.1, an upstream
HTTP 401 failure makes `translateText` return a result whose text is the
mock translation for the (text, model) pair annotated with the
authentication-failure reason, with latency ≥ 0; for gpt-4.1 the annotation
is the fixed demo note instead. -/
theorem auth401_fallback_note (env : Env) (s : ServiceState) (text msg : String)
    (m : TranslationModel) (hatt : chatCallAttempted env s text m = true)
    (hout : env.chatOutcome = ChatOutcome.failure ⟨msg, some 401⟩)
    (ht : env.t0 ≤ env.t1) :
    0 ≤ (translateText env s text m).2.latency ∧
    (m ≠ gpt41 → (translateText env s text m).2.text =
      mockTranslation text m ++ "\n\n(Note: API call failed: " ++
        "Authentication failed - check your API key" ++ ")") ∧
    (m = gpt41 → (translateText env s text m).2.text =
      mockTranslation text m ++
        "\n\n(Demo Note: GPT-4.1 is deployed but requires special API access. Using mock translation for demo.)") := by
  have hstep := attempt_of_chatAttempted env s text m hatt
  unfold translateText
  rw [hstep, hout]
  refine ⟨?_, ?_, ?_⟩
  · simp only [translateSingleChunk]
    omega
  · intro hg
    simp only [translateSingleChunk, if_neg hg]
    norm_num
  · intro hg
    simp only [translateSingleChunk, if_pos hg]

/-- Witness for the amended C2 at a concrete 401 environment. -/
theorem auth401_fallback_note_witness :
    chatCallAttempted env401 ⟨none⟩ "good morning" gpt5chat = true ∧
    0 ≤ (translateText env401 ⟨none⟩ "good morning" gpt5chat).2.latency ∧
    (translateText env401 ⟨none⟩ "good morning" gpt5chat).2.text =
      mockTranslation "good morning" gpt5chat ++
        "\n\n(Note: API call failed: " ++
        "Authentication failed - check your API key" ++ ")" := by
  have h := auth401_fallback_note env401 ⟨none⟩ "good morning" "Unauthorized"
    gpt5chat rfl rfl (by decide)
  exact ⟨rfl, h.1, h.2.1 (by decide)⟩

/-! ## C4: failure classification on the two call shapes -/

/-- A concrete configured environment whose chat call fails with HTTP 403. -/
def env403 : Env :=
  ⟨true, false, ChatOutcome.failure ⟨"Forbidden", some 403⟩,
    AzOutcome.networkFailure "", 0, 5, ⟨2026, 10, 12, 0, 0, 0, 0⟩⟩

/-- C4 (counterexample to the claim as stated): on the chat-style shape an
upstream HTTP 403 is not classified as access/subscription denial — the raw
error message is retained in the fallback note. -/
theorem failure_classification_counterexample :
    (translateText env403 ⟨none⟩ "hello" gpt5chat).2.text =
      "[GPT-5 Chat Mock] Spanish translation of: \"hello\"\n\n(Note: API call failed: Forbidden)" ∧
    jsIncludes (translateText env403 ⟨none⟩ "hello" gpt5chat).2.text
      "Access denied" = false := by
  constructor
  · rfl
  · rfl

/-- C4 (amended): on the chat-style shape, 401 is classified as
authentication failure and 429 as rate limit, and the classification is the
annotated reason; 403 has no case of its own, so the raw message is
retained.  On the dedicated-translation shape, HTTP failures are rethrown
as plain errors carrying only the message
"Azure Translate API error: {status} {statusText}" and no status property,
so the 401/403/429 classification branches there never fire and the raw
message is what gets annotated, whatever the status was. -/
theorem failure_classification_both_shapes (s : ServiceState)
    (text msg statusText : String) (m : TranslationModel) (st : Nat)
    (body : Option (List AzItem)) (hg : m ≠ gpt41) (hmsg : msg ≠ "") :
    (∀ env : Env, chatCallAttempted env s text m = true →
      env.chatOutcome = ChatOutcome.failure ⟨msg, some 401⟩ →
      (translateText env s text m).2.text =
        mockTranslation text m ++ "\n\n(Note: API call failed: " ++
          "Authentication failed - check your API key" ++ ")") ∧
    (∀ env : Env, chatCallAttempted env s text m = true →
      env.chatOutcome = ChatOutcome.failure ⟨msg, some 429⟩ →
      (translateText env s text m).2.text =
        mockTranslation text m ++ "\n\n(Note: API call failed: " ++
          "Rate limit exceeded - please wait and try again" ++ ")") ∧
    (∀ env : Env, chatCallAttempted env s text m = true →
      env.chatOutcome = ChatOutcome.failure ⟨msg, some 403⟩ →
      (translateText env s text m).2.text =
        mockTranslation text m ++ "\n\n(Note: API call failed: " ++ msg ++ ")") ∧
    (∀ env : Env, env.azConfigPresent = true →
      env.azOutcome = AzOutcome.response st statusText body →
      ¬(200 ≤ st ∧ st < 300) →
      (translateText env s text azureTranslate).2.text =
        mockTranslation text azureTranslate ++
          "\n\n(Note: Azure Translate API call failed: " ++
          ("Azure Translate API error: " ++ toString st ++ " " ++ statusText) ++ ")") := by
  refine ⟨?_, ?_, ?_, ?_⟩
  · intro env hatt hout
    have hstep := attempt_of_chatAttempted env s text m hatt
    unfold translateText
    rw [hstep, hout]
    simp only [translateSingleChunk, if_neg hg]
    norm_num
  · intro env hatt hout
    have hstep := attempt_of_chatAttempted env s text m hatt
    unfold translateText
    rw [hstep, hout]
    simp only [translateSingleChunk, if_neg hg]
    norm_num
  · intro env hatt hout
    have hstep := attempt_of_chatAttempted env s text m hatt
    unfold translateText
    rw [hstep, hout]
    simp only [translateSingleChunk, if_neg hg]
    norm_num [jsErrorText, hmsg]
  · intro env hAzc hAzo hst
    have hfetch : azureFetchResult env.azOutcome =
        Except.error ⟨"Azure Translate API error: " ++ toString st ++ " " ++
          statusText, none⟩ := by
      rw [hAzo]
      simp only [azureFetchResult]
      rw [if_neg hst]
    have hmsg2 := azureErrorMessage_ne_empty st statusText
    unfold translateText translateAttempt translateWithAzureTranslate
    rw [if_pos rfl, if_neg (by simp [hAzc]), hfetch]
    simp [jsErrorText, hmsg2]

/-- Witness for the amended C4 at concrete 401/429/403 chat environments
and a 403 dedicated-translation environment. -/
theorem failure_classification_both_shapes_witness :
    (translateText env401 ⟨none⟩ "world" gpt5chat).2.text =
      mockTranslation "world" gpt5chat ++ "\n\n(Note: API call failed: " ++
        "Authentication failed - check your API key" ++ ")" ∧
    (translateText ⟨true, false, ChatOutcome.failure ⟨"Too Many", some 429⟩,
        AzOutcome.networkFailure "", 0, 5, ⟨2026, 10, 12, 0, 0, 0, 0⟩⟩ ⟨none⟩
        "world" gpt5chat).2.text =
      mockTranslation "world" gpt5chat ++ "\n\n(Note: API call failed: " ++
        "Rate limit exceeded - please wait and try again" ++ ")" ∧
    (translateText env403 ⟨none⟩ "world" gpt5chat).2.text =
      mockTranslation "world" gpt5chat ++ "\n\n(Note: API call failed: " ++
        "Forbidden" ++ ")" ∧
    (translateText ⟨false, true, ChatOutcome.response ⟨[]⟩,
        AzOutcome.response 403 "Forbidden" none, 0, 5,
        ⟨2026, 10, 12, 0, 0, 0, 0⟩⟩ ⟨none⟩ "world" azureTranslate).2.text =
      mockTranslation "world" azureTranslate ++
        "\n\n(Note: Azure Translate API call failed: " ++
        ("Azure Translate API error: " ++ toString 403 ++ " " ++ "Forbidden") ++ ")" := by
  have h401 := failure_classification_both_shapes ⟨none⟩ "world" "Unauthorized"
    "" gpt5chat 0 none (by decide) (by decide)
  have h429 := failure_classification_both_shapes ⟨none⟩ "world" "Too Many"
    "" gpt5chat 0 none (by decide) (by decide)
  have h403 := failure_classification_both_shapes ⟨none⟩ "world" "Forbidden"
    "" gpt5chat 0 none (by decide) (by decide)
  have hAz := failure_classification_both_shapes ⟨none⟩ "world" "x"
    "Forbidden" gpt5chat 403 none (by decide) (by decide)
  refine ⟨h401.1 env401 rfl rfl, ?_, h403.2.2.1 env403 rfl rfl, ?_⟩
  · exact h429.2.1 _ rfl rfl
  · exact hAz.2.2.2 _ rfl rfl (by norm_num)

/-! ## C9: successful calls preserve `lastError` -/

/-- C9: for every non-dedicated model, a `translateText` call whose try
block completes without throwing leaves the service's `lastError` unchanged
(`getLastError` still reports the error of an earlier failed call); the
field is cleared only by a dedicated-translation attempt with the dedicated
configuration present, shown here for a successful fetch. -/
theorem success_preserves_lastError (env : Env) (s : ServiceState)
    (text : String) (m : TranslationModel) (hm : m ≠ azureTranslate)
    (hok : translateOk env s text m = true) :
    getLastError (translateText env s text m).1 = getLastError s ∧
    (∀ (env2 : Env) (s2 : ServiceState) (text2 t2 : String),
      env2.azConfigPresent = true →
      azureFetchResult env2.azOutcome = Except.ok t2 →
      getLastError (translateText env2 s2 text2 azureTranslate).1 = none) := by
  constructor
  · have hst := attempt_state_nonAz env s text m hm
    unfold translateOk at hok
    rcases hE : (translateAttempt env s text m) with ⟨s1, r, b⟩
    rw [hE] at hok hst
    simp only at hst
    unfold translateText
    rw [hE]
    cases r with
    | error e => simp at hok
    | ok t =>
      show s1.lastError = s.lastError
      rw [hst]
  · intro env2 s2 text2 t2 hAzc hfetch
    unfold translateText translateAttempt translateWithAzureTranslate
    rw [if_pos rfl, if_neg (by simp [hAzc]), hfetch]
    rfl

/-- Witness for C9: an earlier failure message survives a later successful
(mock-path) call. -/
theorem success_preserves_lastError_witness :
    translateOk (Env.mk false false (ChatOutcome.response ⟨[]⟩)
        (AzOutcome.networkFailure "") 0 0 ⟨2026, 10, 12, 0, 0, 0, 0⟩)
      ⟨some "Rate limit exceeded - please wait and try again"⟩ "hi" gpt5chat = true ∧
    getLastError (translateText (Env.mk false false (ChatOutcome.response ⟨[]⟩)
        (AzOutcome.networkFailure "") 0 0 ⟨2026, 10, 12, 0, 0, 0, 0⟩)
      ⟨some "Rate limit exceeded - please wait and try again"⟩ "hi" gpt5chat).1 =
      some "Rate limit exceeded - please wait and try again" := by
  refine ⟨rfl, ?_⟩
  have h := success_preserves_lastError (Env.mk false false
    (ChatOutcome.response ⟨[]⟩) (AzOutcome.networkFailure "") 0 0
    ⟨2026, 10, 12, 0, 0, 0, 0⟩)
    ⟨some "Rate limit exceeded - please wait and try again"⟩ "hi" gpt5chat
    (by decide) rfl
  exact h.1

/-! ## Orchestrator helper lemmas -/

lemma mem_dedupAux {x : String} :
    ∀ (l seen : List String), x ∈ dedupAux l seen → x ∈ l := by
  intro l
  induction l with
  | nil => intro seen h; simp [dedupAux] at h
  | cons t ts ih =>
    intro seen h
    unfold dedupAux at h
    split_ifs at h with hmem
    · exact List.mem_cons_of_mem t (ih seen h)
    · rcases List.mem_cons.mp h with h1 | h2
      · exact h1 ▸ List.mem_cons_self t ts
      · exact List.mem_cons_of_mem t (ih (t :: seen) h2)

lemma batchLoop_invocations {α : Type} (tf : String → α → String)
    (fails : Nat → Bool) (n : Nat) (models : List α) :
    ∀ (ts : List String) (i : Nat),
      (batchLoop tf fails n models ts i).invocations =
        ts.flatMap (fun t => models.map (fun m => (t, m))) := by
  intro ts
  induction ts with
  | nil => intro i; rfl
  | cons t ts ih =>
    intro i
    unfold batchLoop
    split_ifs <;> simp [ih (i + 1)]

lemma batchLoop_entries_keys {α : Type} (tf : String → α → String)
    (fails : Nat → Bool) (n : Nat) (models : List α) :
    ∀ (ts : List String) (i : Nat),
      (batchLoop tf fails n models ts i).entries.map Prod.fst = ts := by
  intro ts
  induction ts with
  | nil => intro i; rfl
  | cons t ts ih =>
    intro i
    unfold batchLoop
    split_ifs <;> simp [ih (i + 1)]

lemma lookup_eq_none_of_not_mem_keys {α : Type} {k : String}
    {l : List (String × α)} (h : k ∉ l.map Prod.fst) : l.lookup k = none := by
  induction l with
  | nil => rfl
  | cons p l ih =>
    rcases p with ⟨a, b⟩
    simp only [List.map_cons, List.mem_cons, not_or] at h
    have hbeq : (k == a) = false := by
      simp only [beq_eq_false_iff_ne, ne_eq]
      exact h.1
    unfold List.lookup
    rw [hbeq]
    exact ih h.2

lemma mem_batchLoop_updates {α : Type} (tf : String → α → String)
    (fails : Nat → Bool) (n : Nat) (models : List α) {x : ℚ} :
    ∀ (ts : List String) (i : Nat),
      x ∈ (batchLoop tf fails n models ts i).updates →
      ∃ j, i ≤ j ∧ x = progressValue n j := by
  intro ts
  induction ts with
  | nil => intro i h; simp [batchLoop] at h
  | cons t ts ih =>
    intro i h
    unfold batchLoop at h
    split_ifs at h with hf
    · obtain ⟨j, hj, hx⟩ := ih (i + 1) h
      exact ⟨j, by omega, hx⟩
    · rcases List.mem_cons.mp h with h1 | h2
      · exact ⟨i, le_refl i, h1⟩
      · obtain ⟨j, hj, hx⟩ := ih (i + 1) h2
        exact ⟨j, by omega, hx⟩

lemma progressValue_mono {n : Nat} (hn : 0 < n) {i j : Nat} (h : i ≤ j) :
    progressValue n i ≤ progressValue n j := by
  unfold progressValue
  have hn2 : (0 : ℚ) < (n : ℚ) := by exact_mod_cast hn
  have hij : ((i : ℚ) + 1) ≤ ((j : ℚ) + 1) := by
    have : (i : ℚ) ≤ (j : ℚ) := by exact_mod_cast h
    linarith
  have := (div_le_div_iff_of_pos_right hn2).mpr hij
  linarith

lemma progressValue_nonneg {n : Nat} (i : Nat) : 0 ≤ progressValue n i := by
  unfold progressValue
  positivity

lemma sorted_batchLoop_updates {α : Type} (tf : String → α → String)
    (fails : Nat → Bool) (n : Nat) (models : List α) (hn : 0 < n) :
    ∀ (ts : List String) (i : Nat),
      List.Sorted (fun a b => a ≤ b) (batchLoop tf fails n models ts i).updates := by
  intro ts
  induction ts with
  | nil => intro i; simp [batchLoop]
  | cons t ts ih =>
    intro i
    unfold batchLoop
    split_ifs with hf
    · exact ih (i + 1)
    · refine List.sorted_cons.mpr ⟨?_, ih (i + 1)⟩
      intro b hb
      obtain ⟨j, hj, hx⟩ := mem_batchLoop_updates tf fails n models ts (i + 1) hb
      rw [hx]
      exact progressValue_mono hn (by omega)

lemma getLastD_batchLoop_updates {α : Type} (tf : String → α → String)
    (fails : Nat → Bool) (n : Nat) (models : List α) :
    ∀ (ts : List String) (i : Nat) (d : ℚ), ts ≠ [] →
      fails (i + ts.length - 1) = false →
      ((batchLoop tf fails n models ts i).updates).getLastD d =
        progressValue n (i + ts.length - 1) := by
  intro ts
  induction ts with
  | nil => intro i d h; exact absurd rfl h
  | cons t ts ih =>
    intro i d hne hlast
    rcases List.eq_nil_or_concat ts with hts | _
    · subst hts
      simp only [List.length_cons, List.length_nil] at hlast ⊢
      have hi : i + (0 + 1) - 1 = i := by omega
      rw [hi] at hlast ⊢
      unfold batchLoop
      rw [if_neg (by simp [hlast])]
      rfl
    · rcases hcases : ts with _ | ⟨t2, ts2⟩
      · subst hcases
        simp only [List.length_cons, List.length_nil] at hlast ⊢
        have hi : i + (0 + 1) - 1 = i := by omega
        rw [hi] at hlast ⊢
        unfold batchLoop
        rw [if_neg (by simp [hlast])]
        rfl
      · have hts2 : ts ≠ [] := by rw [hcases]; simp
        rw [← hcases]
        have hlen : i + (t :: ts).length - 1 = (i + 1) + ts.length - 1 := by
          simp only [List.length_cons]
          have : 0 < ts.length := by rw [hcases]; simp
          omega
        rw [hlen] at hlast ⊢
        unfold batchLoop
        split_ifs with hf
        · exact ih (i + 1) d hts2 hlast
        · rw [List.getLastD_cons]
          exact ih (i + 1) (progressValue n i) hts2 hlast

/-! ## C5: progress monotonicity and completion -/

/-- C5: over a non-empty set of unique texts, the reported progress
percentages are monotonically non-decreasing across updates, and if the
last unique text completes (its loop body does not throw) the final
reported progress is exactly 100 (the 0–100 scale image of the fraction
1.0). -/
theorem batch_progress_monotone_complete {α : Type} (tf : String → α → String)
    (fails : Nat → Bool) (models : List α) (data : List CsvRow)
    (hne : orchUnique data ≠ []) :
    List.Sorted (fun a b => a ≤ b) (batchProgressReports tf fails models data) ∧
    (fails ((orchUnique data).length - 1) = false →
      batchFinalProgress tf fails models data = 100) := by
  have hn : 0 < (orchUnique data).length := List.length_pos.mpr hne
  constructor
  · unfold batchProgressReports orchLoop
    refine List.sorted_cons.mpr ⟨?_, ?_⟩
    · intro b hb
      obtain ⟨j, _, hx⟩ := mem_batchLoop_updates tf fails
        (orchUnique data).length models (orchUnique data) 0 hb
      rw [hx]
      exact progressValue_nonneg j
    · exact sorted_batchLoop_updates tf fails (orchUnique data).length models hn
        (orchUnique data) 0
  · intro hlast
    unfold batchFinalProgress batchProgressReports orchLoop
    rw [List.getLastD_cons]
    have h0 : (0 : Nat) + (orchUnique data).length - 1 = (orchUnique data).length - 1 := by
      omega
    rw [getLastD_batchLoop_updates tf fails (orchUnique data).length models
      (orchUnique data) 0 0 hne (by rw [h0]; exact hlast), h0]
    unfold progressValue
    have hcast : (((orchUnique data).length - 1 : Nat) : ℚ) + 1 =
        ((orchUnique data).length : ℚ) := by
      rw [Nat.cast_sub (by omega : 1 ≤ (orchUnique data).length)]
      ring
    rw [hcast]
    have hne2 : ((orchUnique data).length : ℚ) ≠ 0 := by
      exact_mod_cast Nat.pos_iff_ne_zero.mp hn
    rw [div_self hne2]
    norm_num

/-- Witness for C5 on a concrete two-row CSV with no loop failures. -/
theorem batch_progress_monotone_complete_witness :
    orchUnique [[("S.No", "1"), ("English", "Hi")],
      [("S.No", "2"), ("English", "Bye")]] ≠ [] ∧
    List.Sorted (fun a b => a ≤ b)
      (batchProgressReports (fun t _ => t) (fun _ => false) [Unit.unit]
        [[("S.No", "1"), ("English", "Hi")], [("S.No", "2"), ("English", "Bye")]]) ∧
    batchFinalProgress (fun t _ => t) (fun _ => false) [Unit.unit]
      [[("S.No", "1"), ("English", "Hi")], [("S.No", "2"), ("English", "Bye")]] = 100 := by
  have hne : orchUnique [[("S.No", "1"), ("English", "Hi")],
      [("S.No", "2"), ("English", "Bye")]] ≠ [] := by decide
  have h := batch_progress_monotone_complete (fun t _ => t) (fun _ => false)
    [Unit.unit] [[("S.No", "1"), ("English", "Hi")],
      [("S.No", "2"), ("English", "Bye")]] hne
  exact ⟨hne, h.1, h.2 rfl⟩

/-! ## C10: row filtering of the batch orchestrator -/

lemma not_whitespace_of_letter {c : Char} (h : isAsciiLetter c = true) :
    jsWhitespace c = false := by
  unfold isAsciiLetter at h
  unfold jsWhitespace
  simp only [Bool.or_eq_true, Bool.and_eq_true, decide_eq_true_eq] at h
  simp only [Bool.or_eq_false_iff, Bool.and_eq_false_iff, decide_eq_false_iff_not]
  omega

lemma mem_dropWhile_of_not {p : Char → Bool} {a : Char} (hpa : p a = false) :
    ∀ {l : List Char}, a ∈ l → a ∈ l.dropWhile p := by
  intro l
  induction l with
  | nil => intro h; exact absurd h (List.not_mem_nil a)
  | cons b t ih =>
    intro h
    unfold List.dropWhile
    cases hb : p b with
    | true =>
      rcases List.mem_cons.mp h with h1 | h2
      · rw [h1] at hpa; rw [hpa] at hb; exact absurd hb (by simp)
      · exact ih h2
    | false => exact h

lemma mem_jsTrim_of_mem {s : String} {c : Char} (hc : c ∈ s.data)
    (hw : jsWhitespace c = false) : c ∈ (jsTrim s).data := by
  unfold jsTrim
  rw [List.mem_reverse]
  apply mem_dropWhile_of_not hw
  rw [List.mem_reverse]
  exact mem_dropWhile_of_not hw hc

lemma mem_of_mem_jsTrim {s : String} {c : Char} (hc : c ∈ (jsTrim s).data) :
    c ∈ s.data := by
  unfold jsTrim at hc
  rw [List.mem_reverse] at hc
  have h1 := (List.dropWhile_sublist _).subset hc
  rw [List.mem_reverse] at h1
  exact (List.dropWhile_sublist _).subset h1

lemma hasLetter_jsTrim {s : String} (h : hasLetter s = true) :
    hasLetter (jsTrim s) = true := by
  unfold hasLetter at h ⊢
  obtain ⟨c, hc, hl⟩ := List.any_eq_true.mp h
  exact List.any_eq_true.mpr
    ⟨c, mem_jsTrim_of_mem hc (not_whitespace_of_letter hl), hl⟩

lemma hasLetter_of_jsTrim {s : String} (h : hasLetter (jsTrim s) = true) :
    hasLetter s = true := by
  unfold hasLetter at h ⊢
  obtain ⟨c, hc, hl⟩ := List.any_eq_true.mp h
  exact List.any_eq_true.mpr ⟨c, mem_of_mem_jsTrim hc, hl⟩

/-- The trimmed English cell of a row that fails the `extractTextFromCsv`
filter never appears among the extracted texts: extracted texts are
non-empty and contain an ASCII letter after trimming, while a failing cell's
trim is empty or letter-free. -/
lemma not_mem_extract {data : List CsvRow} {e : String}
    (hfail : translatable e = false) : jsTrim e ∉ extractTextFromCsv data := by
  intro hmem
  obtain ⟨row, hrow, hsome⟩ := List.mem_filterMap.mp hmem
  by_cases h2 : translatable (englishOf row) = true
  · rw [if_pos h2] at hsome
    have heq : jsTrim (englishOf row) = jsTrim e := Option.some.inj hsome
    have hpass : 0 < (jsTrim (englishOf row)).length ∧
        hasLetter (jsTrim (englishOf row)) = true := by
      unfold translatable at h2
      simp only [Bool.and_eq_true, decide_eq_true_eq] at h2
      exact ⟨h2.1, hasLetter_jsTrim h2.2⟩
    rw [heq] at hpass
    unfold translatable at hfail
    simp only [Bool.and_eq_false_iff, decide_eq_false_iff_not] at hfail
    rcases hfail with hlen | hlet
    · exact hlen hpass.1
    · have := hasLetter_of_jsTrim hpass.2
      rw [hlet] at this
      exact absurd this (by simp)
  · rw [if_neg h2] at hsome
    exact absurd hsome (by simp)

/-- C10: the orchestrator submits for translation only the rows whose
English cell passes the filter (non-empty after trimming and containing an
ASCII letter): a failing row is returned unchanged in the translated CSV
(no Spanish cell attached), its trimmed text is never among the
`translateText` invocations, and every invoked text is the trimmed English
cell of some passing row. -/
theorem nonletter_rows_not_translated {α : Type} [DecidableEq α]
    (label : α → String) (tf : String → α → String) (fails : Nat → Bool)
    (models : List α) (data : List CsvRow) (row : CsvRow)
    (hrow : row ∈ data) (hfail : translatable (englishOf row) = false) :
    translatedRow (orchLoop tf fails models data).entries label models row = row ∧
    (∀ p ∈ batchInvocations tf fails models data, p.1 ≠ jsTrim (englishOf row)) ∧
    (∀ p ∈ batchInvocations tf fails models data, ∃ r2 ∈ data,
      translatable (englishOf r2) = true ∧ p.1 = jsTrim (englishOf r2)) := by
  have hkeys : (orchLoop tf fails models data).entries.map Prod.fst =
      orchUnique data := by
    unfold orchLoop
    exact batchLoop_entries_keys tf fails (orchUnique data).length models
      (orchUnique data) 0
  have hinv : ∀ p : String × α, p ∈ batchInvocations tf fails models data →
      p.1 ∈ orchUnique data := by
    intro p hp
    unfold batchInvocations orchLoop at hp
    rw [batchLoop_invocations] at hp
    obtain ⟨t, ht, hmap⟩ := List.mem_flatMap.mp hp
    obtain ⟨m, _, hpm⟩ := List.mem_map.mp hmap
    rw [← hpm]
    exact ht
  refine ⟨?_, ?_, ?_⟩
  · unfold translatedRow
    by_cases he : englishOf row = ""
    · rw [if_pos he]
    · rw [if_neg he]
      have hnot : jsTrim (englishOf row) ∉
          (orchLoop tf fails models data).entries.map Prod.fst := by
        rw [hkeys]
        intro hmem
        exact not_mem_extract hfail (mem_dedupAux _ _ hmem)
      rw [lookup_eq_none_of_not_mem_keys hnot]
  · intro p hp heq
    have h1 := hinv p hp
    rw [heq] at h1
    exact not_mem_extract hfail (mem_dedupAux _ _ h1)
  · intro p hp
    have h1 := mem_dedupAux _ _ (hinv p hp)
    obtain ⟨r2, hr2, hsome⟩ := List.mem_filterMap.mp h1
    by_cases h2 : translatable (englishOf r2) = true
    · rw [if_pos h2] at hsome
      exact ⟨r2, hr2, h2, (Option.some.inj hsome).symm⟩
    · rw [if_neg h2] at hsome
      exact absurd hsome (by simp)

/-- Witness for C10: a digits-only row is not translated while the letter
row is the only invocation. -/
theorem nonletter_rows_not_translated_witness :
    translatable (englishOf [("S.No", "1"), ("English", "123")]) = false ∧
    translatedRow (orchLoop (fun t _ => t) (fun _ => false) [Unit.unit]
        [[("S.No", "1"), ("English", "123")], [("S.No", "2"), ("English", "Ok")]]).entries
      (fun _ => "GPT-4o") [Unit.unit] [("S.No", "1"), ("English", "123")] =
      [("S.No", "1"), ("English", "123")] ∧
    ("Ok", Unit.unit).1 ≠ jsTrim (englishOf [("S.No", "1"), ("English", "123")]) := by
  have h := nonletter_rows_not_translated (fun _ => "GPT-4o") (fun t _ => t)
    (fun _ => false) [Unit.unit]
    [[("S.No", "1"), ("English", "123")], [("S.No", "2"), ("English", "Ok")]]
    [("S.No", "1"), ("English", "123")] (by simp) (by decide)
  refine ⟨by decide, h.1, ?_⟩
  exact h.2.1 ("Ok", Unit.unit) (by decide)

/-! ## C6: content deduplication on ["Hi", "Hi", "Bye"] -/

/-- The three-row CSV whose English cells are "Hi", "Hi", "Bye". -/
def csvHiHiBye : List CsvRow :=
  [[("S.No", "1"), ("English", "Hi")],
   [("S.No", "2"), ("English", "Hi")],
   [("S.No", "3"), ("English", "Bye")]]

/-- C6: on the rows ["Hi", "Hi", "Bye"] with one selected model, the
orchestrator makes exactly 2 `translateText` invocations (one per unique
text, not 3), while the translated CSV still has 3 rows; the first two rows
receive the same single attached Spanish cell. -/
theorem batch_dedup_hi_hi_bye {α : Type} [DecidableEq α] (label : α → String)
    (tf : String → α → String) (fails : Nat → Bool) (m : α) :
    (batchInvocations tf fails [m] csvHiHiBye).length = 2 ∧
    (batchOutput tf fails label [m] csvHiHiBye).length = 3 ∧
    ((batchOutput tf fails label [m] csvHiHiBye).getD 0 []).drop 2 =
      ((batchOutput tf fails label [m] csvHiHiBye).getD 1 []).drop 2 ∧
    (((batchOutput tf fails label [m] csvHiHiBye).getD 0 []).drop 2).length = 1 := by
  have hu : orchUnique csvHiHiBye = ["Hi", "Bye"] := by decide
  cases h0 : fails 0 <;> cases h1 : fails 1 <;>
    simp [batchInvocations, batchOutput, orchLoop, hu, batchLoop, h0, h1,
      translatedRow, csvHiHiBye, englishOf, fieldOr, List.lookup, jsTrim,
      List.dropWhile]

end AiTranslation
